import Mathlib

/-
Shallow embedding of src/main_window.py (MiniLyricsPlayerQt6).

The program is a Qt mini player: it loads the 10 most recently played
tracks from a streaming collaborator into a dictionary keyed by
"name - artist" and a list widget, and fetches lyrics for a selected
track on a background worker thread that reports back through queued
signals.

Modelling conventions:
- Python strings are Lean String; where character-level reasoning is
  needed (the split on " - ") we work on List Char, the contents of a
  String.
- The Python dict self.track_data is an association list with the dict
  semantics used by the program: assigning an existing key overwrites
  the value in place, a new key is appended at the end.
- External calls are inputs: the streaming response is an
  Except String (List RawItem) (error = any exception raised by the
  client call, ok = the items array); the lyrics lookup result is an
  Except String (Option String) (error = exception, ok none = no song
  found, ok some = the song object with its lyrics text).
- print(...) calls that the claims talk about are modelled as entries
  appended to a log field; Qt label text is a String field; the
  QScrollArea visibility is a Bool field.
- The album-art pipeline (display_image, QPixmap) only touches the
  image label and is not referenced by any claim; it is left out of the
  state.
-/

/-- Track metadata stored per entry of self.track_data
(main_window.py lines 154-158). -/
structure Track where
  name : String
  artist : String
  image_url : String
deriving DecidableEq

/-- Shape of one element of results["items"] from
current_user_recently_played, keeping exactly the fields the code reads:
track name (absent key modelled as none), the artist name list and the
album image url list (lines 149-151). -/
structure RawItem where
  rname : Option String
  artists : List String
  images : List String
deriving DecidableEq

/-- Identity key f"{track_name} - {artist_name}" (line 154). -/
def trackKey (n a : String) : String := n ++ " - " ++ a

/-- Extraction performed on one item at lines 149-151: track name,
first artist name, first album image url. Returns none when the Python
code would raise (missing key or empty list). -/
def extractItem (it : RawItem) : Option (String × String × String) :=
  match it.rname, it.artists, it.images with
  | some n, a :: _, u :: _ => some (n, a, u)
  | _, _, _ => none

/-- Python dict assignment d[k] = t on an insertion-ordered dict:
overwrite in place if the key exists, otherwise append. -/
def insertTrack (store : List (String × Track)) (k : String) (t : Track) :
    List (String × Track) :=
  match store with
  | [] => [(k, t)]
  | (k', t') :: rest =>
      if k' = k then (k, t) :: rest else (k', t') :: insertTrack rest k t

/-- Keys of the track store, in insertion order. -/
def keysOf (store : List (String × Track)) : List String :=
  store.map Prod.fst

/-- Observable state of the MiniPlayer window: self.track_data, the
QListWidget items, the lyrics label text, whether the lyrics scroll
area is visible, and the console log. -/
structure PlayerState where
  trackData : List (String × Track)
  trackList : List String
  lyricsLabel : String
  scrollVisible : Bool
  log : List String
deriving DecidableEq

/-- State right after setup_ui: empty store, empty list, empty label,
scroll area hidden (line 112), nothing printed. -/
def initState : PlayerState :=
  { trackData := [], trackList := [], lyricsLabel := "", scrollVisible := false, log := [] }

/-- Body of the for loop of load_recent_tracks (lines 148-160): each
item is extracted, stored and appended to the list widget; the first
malformed item raises, aborting the loop; the exception is caught at
line 168 and printed. -/
def loadLoop (st : PlayerState) (items : List RawItem) : PlayerState :=
  match items with
  | [] => st
  | it :: rest =>
      match extractItem it with
      | none => { st with log := st.log ++ ["Error loading recent tracks: malformed item"] }
      | some (n, a, u) =>
          loadLoop
            { st with
              trackData := insertTrack st.trackData (trackKey n a) ⟨n, a, u⟩,
              trackList := st.trackList ++ [trackKey n a] } rest

/-- load_recent_tracks (lines 136-169): on a failing collaborator call
nothing is touched except the printed error (line 169); on a successful
call the store is cleared (line 146) and the loop runs. The
display_image call for the first track (lines 162-167) only affects the
image label and is outside the modelled state. -/
def loadRecentTracks (st : PlayerState) (resp : Except String (List RawItem)) :
    PlayerState :=
  match resp with
  | .error e => { st with log := st.log ++ ["Error loading recent tracks: " ++ e] }
  | .ok items => loadLoop { st with trackData := [] } items

/-- refresh_tracks (lines 258-265): clear the list widget, then reload. -/
def refreshTracks (st : PlayerState) (resp : Except String (List RawItem)) :
    PlayerState :=
  loadRecentTracks { st with trackList := [] } resp

/-- Signals a LyricsWorker can emit (lines 25-26). -/
inductive WSignal where
  | lyricsReady (s : String)
  | errorOccurred (e : String)
deriving DecidableEq

/-- LyricsWorker.run (lines 33-44) as a function of the provider
outcome: a found song emits its raw lyrics, no song emits the in-band
sentinel "Lyrics not found", an exception emits error_occurred with the
exception text. -/
def lyricsWorkerRun (lookup : Except String (Option String)) : WSignal :=
  match lookup with
  | .ok (some lyr) => WSignal.lyricsReady lyr
  | .ok none => WSignal.lyricsReady "Lyrics not found"
  | .error e => WSignal.errorOccurred e

/-- update_lyrics (lines 224-231): the label text that the slot sets
for a given lyrics_ready payload. -/
def updateLyrics (lyrics : String) : String :=
  if lyrics = "Lyrics not found" then "No lyrics available for this track."
  else lyrics

/-- Delivery of a worker signal to its connected slot (lines 220-221):
lyrics_ready goes to update_lyrics, error_occurred goes to
handle_lyrics_error (lines 233-238) which prints the raw error and sets
the fixed label text. -/
def deliverSignal (st : PlayerState) (sig : WSignal) : PlayerState :=
  match sig with
  | WSignal.lyricsReady s => { st with lyricsLabel := updateLyrics s }
  | WSignal.errorOccurred e =>
      { st with
        log := st.log ++ ["Error fetching lyrics: " ++ e],
        lyricsLabel := "Error fetching lyrics. Please try again later." }

/-- Helper of pySplit: push a character onto the front of the first
part of an already-split remainder. -/
def consHead (c : Char) : List (List Char) → List (List Char)
  | [] => [[c]]
  | p :: ps => (c :: p) :: ps

/-- Python text.split(" - ") on the character list of text: greedy
leftmost non-overlapping scan for the three-character separator, never
dropping empty parts (line 249 of main_window.py). -/
def pySplit : List Char → List (List Char)
  | [] => [[]]
  | [c] => [[c]]
  | [c, d] => [[c, d]]
  | c :: d :: e :: rest =>
      if c = ' ' ∧ d = '-' ∧ e = ' ' then
        [] :: pySplit rest
      else
        consHead c (pySplit (d :: e :: rest))

/-- Python substring test " - " in s on the character list of s. -/
def hasSep : List Char → Bool
  | [] => false
  | [_] => false
  | [_, _] => false
  | c :: d :: e :: rest =>
      if c = ' ' ∧ d = '-' ∧ e = ' ' then true else hasSep (d :: e :: rest)

/-- Character list of the separator " - ". -/
def dashSep : List Char := [' ', '-', ' ']

/-- Two-value unpacking a, b = parts: succeeds exactly on a
two-element list, otherwise Python raises ValueError. -/
def unpack2 : List (List Char) → Option (List Char × List Char)
  | [a, b] => some (a, b)
  | _ => none

/-- track_name, artist_name = selected_item.text().split(" - ")
(line 249), as Strings. -/
def splitPair (text : String) : Option (String × String) :=
  match unpack2 (pySplit text.toList) with
  | some (n, a) => some (String.mk n, String.mk a)
  | none => none

/-- on_track_selected (lines 240-256), synchronous effects: with no
current item the scroll area is hidden; with an item the text is split
(none = the unpacking raised ValueError out of the slot), then
display_lyrics shows the loading placeholder and reveals the scroll
area (lines 210-211) and the selection is printed (line 254). The
worker start is modelled separately in the asynchronous layer. -/
def onTrackSelected (st : PlayerState) (item : Option String) : Option PlayerState :=
  match item with
  | none => some { st with scrollVisible := false }
  | some text =>
      match splitPair text with
      | none => none
      | some (n, a) =>
          some { st with
                 lyricsLabel := "Loading lyrics...",
                 scrollVisible := true,
                 log := st.log ++ ["Track selected: " ++ n ++ " - " ++ a] }

/-- User-level operations after construction: pressing Refresh Tracks
with a given collaborator response, clicking the list (or clearing the
selection), and arrival of a queued worker signal on the UI thread. -/
inductive Op where
  | refreshOp (resp : Except String (List RawItem))
  | selectOp (item : Option String)
  | signalOp (sig : WSignal)

/-- One user-level operation; none means an exception escaped a slot. -/
def applyOp (st : PlayerState) : Op → Option PlayerState
  | Op.refreshOp resp => some (refreshTracks st resp)
  | Op.selectOp item => onTrackSelected st item
  | Op.signalOp sig => some (deliverSignal st sig)

/-- Run of the application: __init__ loads once (line 74) from the
initial state, then any sequence of user-level operations. -/
def runOps (resp0 : Except String (List RawItem)) (ops : List Op) :
    Option PlayerState :=
  ops.foldlM applyOp (loadRecentTracks initState resp0)

/-- Item is well formed when the extraction at lines 149-151 does not
raise. -/
def wellFormedItem (it : RawItem) : Bool :=
  (extractItem it).isSome

/-- Identity key of a well-formed item (meaningless default on a
malformed one). -/
def entryKey (it : RawItem) : String :=
  match extractItem it with
  | some (n, a, _) => trackKey n a
  | none => ""

/-- Track record of a well-formed item (meaningless default on a
malformed one). -/
def trackOfItem (it : RawItem) : Track :=
  match extractItem it with
  | some (n, a, u) => ⟨n, a, u⟩
  | none => ⟨"", "", ""⟩

/-- Store built from a list of items by repeated dict assignment. -/
def storeOfItems (items : List RawItem) : List (String × Track) :=
  items.foldl (fun s it => insertTrack s (entryKey it) (trackOfItem it)) []

/-- Spec-side description of the store after load_recent (amended):
a fetch-level failure leaves the store unchanged; otherwise the store
holds exactly the well-formed items before the first malformed one. -/
def specLoadResult (st : PlayerState) (resp : Except String (List RawItem)) :
    List (String × Track) :=
  match resp with
  | .error _ => st.trackData
  | .ok items => storeOfItems (items.takeWhile wellFormedItem)

/-- Spec-side description of the log after load_recent (amended): a
failure of the collaborator call or a malformed item is printed, a
fully well-formed response prints nothing. -/
def specLoadLog (st : PlayerState) (resp : Except String (List RawItem)) :
    List String :=
  match resp with
  | .error e => st.log ++ ["Error loading recent tracks: " ++ e]
  | .ok items =>
      if items.all wellFormedItem then st.log
      else st.log ++ ["Error loading recent tracks: malformed item"]

/-- Lifecycle of one LyricsWorker thread: running after start(),
finished after its signal was emitted, terminated by
terminate()/wait() (lines 214-216). -/
inductive WStatus where
  | running
  | finished
  | terminated
deriving DecidableEq

/-- One LyricsWorker instance with the track it was created for
(lines 28-31) and its thread status. -/
structure WorkerRec where
  wname : String
  wartist : String
  wstatus : WStatus
deriving DecidableEq

/-- State of the asynchronous layer: all workers ever created (index =
creation order), self.lyrics_worker as an index, the queue of signal
deliveries already posted to the UI thread but not yet dispatched, the
lyrics label, the scroll area visibility and the log. -/
structure AsyncState where
  aworkers : List WorkerRec
  acurrent : Option Nat
  aqueue : List (Nat × WSignal)
  alabel : String
  avisible : Bool
  alog : List String
deriving DecidableEq

/-- Initial asynchronous state: no worker yet (line 68), scroll area
hidden. -/
def asyncInit : AsyncState :=
  { aworkers := [], acurrent := none, aqueue := [], alabel := "", avisible := false, alog := [] }

/-- Status update of worker i. -/
def setStatus : List WorkerRec → Nat → WStatus → List WorkerRec
  | [], _, _ => []
  | w :: rest, 0, s => { w with wstatus := s } :: rest
  | w :: rest, Nat.succ i, s => w :: setStatus rest i s

/-- Status of worker i, none when no such worker exists. -/
def getStatus (ws : List WorkerRec) (i : Nat) : Option WStatus :=
  (ws[i]?).map WorkerRec.wstatus

/-- display_lyrics (lines 202-222): show the loading placeholder and
the scroll area; if the stored worker is still running, terminate and
await it (a terminated worker can no longer emit, but signals it
already posted stay in the queue and its connections stay in place);
then create, connect and start a new worker, which becomes
self.lyrics_worker. -/
def aDisplayLyrics (st : AsyncState) (n a : String) : AsyncState :=
  let ws1 :=
    match st.acurrent with
    | some i =>
        if getStatus st.aworkers i = some WStatus.running then
          setStatus st.aworkers i WStatus.terminated
        else st.aworkers
    | none => st.aworkers
  { st with
    alabel := "Loading lyrics...",
    avisible := true,
    aworkers := ws1 ++ [⟨n, a, WStatus.running⟩],
    acurrent := some ws1.length }

/-- Interleaved actions: a selection reaching display_lyrics with the
split track and artist; worker i completing its provider call and
emitting a signal (posted to the UI queue, thread now finished); the
UI thread dispatching the oldest queued signal. -/
inductive AAct where
  | aselect (n a : String)
  | aemit (i : Nat) (sig : WSignal)
  | aprocess

/-- Small-step semantics of the asynchronous layer. An emit is only
possible for a running worker (terminate+wait at lines 215-216
guarantees a dead thread emits nothing). Dispatch delivers to
update_lyrics / handle_lyrics_error exactly as connected at lines
220-221; the slots never inspect which worker sent the signal. -/
def aStep (st : AsyncState) (act : AAct) : AsyncState :=
  match act with
  | AAct.aselect n a => aDisplayLyrics st n a
  | AAct.aemit i sig =>
      if getStatus st.aworkers i = some WStatus.running then
        { st with
          aworkers := setStatus st.aworkers i WStatus.finished,
          aqueue := st.aqueue ++ [(i, sig)] }
      else st
  | AAct.aprocess =>
      match st.aqueue with
      | [] => st
      | (_, WSignal.lyricsReady s) :: rest =>
          { st with aqueue := rest, alabel := updateLyrics s }
      | (_, WSignal.errorOccurred e) :: rest =>
          { st with
            aqueue := rest,
            alabel := "Error fetching lyrics. Please try again later.",
            alog := st.alog ++ ["Error fetching lyrics: " ++ e] }

/-- Run of a list of interleaved actions. -/
def aRun (st : AsyncState) (acts : List AAct) : AsyncState :=
  acts.foldl aStep st

/-- Schedule exhibiting the stale-lyrics race: track A is selected, its
worker finishes and posts its result, track B is selected before the UI
thread dispatches that result, then the UI thread dispatches it. -/
def staleTrace : List AAct :=
  [AAct.aselect "A" "a",
   AAct.aemit 0 (WSignal.lyricsReady "A lyrics"),
   AAct.aselect "B" "b",
   AAct.aprocess]

/-- Concrete state with one loaded track, prior input of the partial
population counterexample. -/
def c2PriorState : PlayerState :=
  loadRecentTracks initState (Except.ok [⟨some "E", ["F"], ["w"]⟩])

/-- Refresh of c2PriorState with a response whose second item has no
track name: the loop aborts after storing the first item. -/
def c2AfterState : PlayerState :=
  refreshTracks c2PriorState
    (Except.ok [⟨some "A", ["B"], ["u"]⟩, ⟨none, ["C"], ["v"]⟩])

/-- Concrete state in which a track has been loaded and selected, so
the lyrics scroll area is visible. -/
def c3SelectedState : PlayerState :=
  (onTrackSelected
      (loadRecentTracks initState (Except.ok [⟨some "Song", ["Artist"], ["cover"]⟩]))
      (some "Song - Artist")).getD initState

/-- Refresh of c3SelectedState with an empty collaborator response. -/
def c3AfterState : PlayerState :=
  refreshTracks c3SelectedState (Except.ok [])

/-- Well-formed item whose key is "A - B". -/
def c5DupItem : RawItem := ⟨some "A", ["B"], ["u"]⟩

/-- Well-formed two-item response with distinct keys, used to witness
the amended population property. -/
def c5WitnessItems : List RawItem :=
  [⟨some "Song1", ["Artist1"], ["u1"]⟩, ⟨some "Song2", ["Artist2"], ["u2"]⟩]

/-- Initial response of the invariant witness run. -/
def c10Resp : Except String (List RawItem) :=
  Except.ok [⟨some "Song", ["Artist"], ["cover"]⟩]

/-- Operations of the invariant witness run: select the loaded track,
receive its lyrics, then refresh with a fresh response. -/
def c10Ops : List Op :=
  [Op.selectOp (some "Song - Artist"),
   Op.signalOp (WSignal.lyricsReady "la la"),
   Op.refreshOp (Except.ok [⟨some "Tune", ["Band"], ["img"]⟩])]

/-- Final state of the invariant witness run. -/
def c10State : PlayerState :=
  (runOps c10Resp c10Ops).getD initState

/-- C1: a worker that finished its lookup before being superseded has
already posted its signal to the UI queue; terminate()/wait() at lines
214-216 does not unqueue it and the slots never check the sender, so
after track B is selected the queued result of track A is still
presented. Evaluation of the model at the failing schedule: at the end
self.lyrics_worker is the worker for track B, yet the label shows the
lyrics emitted by the worker for track A after B was selected. -/
theorem stale_lyrics_presented :
    (aRun asyncInit staleTrace).alabel = "A lyrics" ∧
    (aRun asyncInit staleTrace).acurrent = some 1 ∧
    (aRun asyncInit staleTrace).aworkers[1]? =
      some ⟨"B", "b", WStatus.running⟩ := by decide

/-- C2 counterexample: refreshing a one-track state with a two-item
response whose second item is malformed leaves a store that is neither
unchanged nor empty: it holds exactly the first item of the new
response, a partially populated collection. -/
theorem load_partial_counterexample :
    c2AfterState.trackData = [("A - B", ⟨"A", "B", "u"⟩)] ∧
    c2AfterState.trackData ≠ c2PriorState.trackData ∧
    c2AfterState.trackData ≠ [] := by decide

/-- C3 counterexample: after a selection made the lyrics scroll area
visible, a refresh with an empty response clears the list and the
store but leaves the scroll area visible, not hidden. -/
theorem refresh_hidden_counterexample :
    c3SelectedState.scrollVisible = true ∧
    c3AfterState.trackList = [] ∧
    c3AfterState.trackData = [] ∧
    c3AfterState.scrollVisible = true := by decide

/-- C3 amended: refreshing with an empty collaborator response empties
the list widget and the store and leaves the visibility of the lyrics
scroll area exactly as it was, hence hidden whenever no selection had
revealed it. -/
theorem refresh_empty_amended (st : PlayerState) :
    (refreshTracks st (Except.ok [])).trackList = [] ∧
    (refreshTracks st (Except.ok [])).trackData = [] ∧
    (refreshTracks st (Except.ok [])).scrollVisible = st.scrollVisible :=
  ⟨rfl, rfl, rfl⟩

/-- C4 counterexample: a lookup that completes with the lyric text
"Lyrics not found" is not presented verbatim: update_lyrics replaces it
by the not-found message, so the claim fails for that string. -/
theorem verbatim_lyrics_counterexample :
    (deliverSignal initState
        (lyricsWorkerRun (Except.ok (some "Lyrics not found")))).lyricsLabel ≠
      "Lyrics not found" ∧
    (deliverSignal initState
        (lyricsWorkerRun (Except.ok (some "Lyrics not found")))).lyricsLabel =
      "No lyrics available for this track." := by
  exact ⟨by decide, rfl⟩

/-- C4 amended: for every lyric text other than the in-band sentinel
"Lyrics not found", a lookup that completes with that text presents it
character for character, with no post-processing. -/
theorem verbatim_lyrics_amended (st : PlayerState) (text : String)
    (h : text ≠ "Lyrics not found") :
    (deliverSignal st (lyricsWorkerRun (Except.ok (some text)))).lyricsLabel =
      text := by
  simp [deliverSignal, lyricsWorkerRun, updateLyrics, h]

/-- Witness: the amended verbatim property applied to a concrete
multi-line lyric text. -/
theorem verbatim_lyrics_amended_witness :
    "first line\nsecond line" ≠ "Lyrics not found" ∧
    (deliverSignal initState
        (lyricsWorkerRun (Except.ok (some "first line\nsecond line")))).lyricsLabel =
      "first line\nsecond line" :=
  ⟨by decide, verbatim_lyrics_amended initState "first line\nsecond line" (by decide)⟩

/-- C5 counterexample: a response of two well-formed entries sharing
the key "A - B" yields a list display with both rows but a Track
Collection with a single entry, not exactly N = 2 entries. -/
theorem n_entries_counterexample :
    (loadRecentTracks initState (Except.ok [c5DupItem, c5DupItem])).trackList =
      ["A - B", "A - B"] ∧
    (loadRecentTracks initState (Except.ok [c5DupItem, c5DupItem])).trackData.length = 1 ∧
    ([c5DupItem, c5DupItem] : List RawItem).length = 2 := by decide

/-- C6: a lookup in which the provider returns no match makes the
worker emit the sentinel, which update_lyrics renders as exactly the
literal not-found message. -/
theorem not_found_message (st : PlayerState) :
    (deliverSignal st (lyricsWorkerRun (Except.ok none))).lyricsLabel =
      "No lyrics available for this track." := rfl

/-- C7: a lookup in which the provider call raises presents exactly the
literal error message; the raw error text goes only to the console log,
and the step is total, so the process does not crash. -/
theorem error_message_behavior (st : PlayerState) (e : String) :
    (deliverSignal st (lyricsWorkerRun (Except.error e))).lyricsLabel =
      "Error fetching lyrics. Please try again later." ∧
    (deliverSignal st (lyricsWorkerRun (Except.error e))).log =
      st.log ++ ["Error fetching lyrics: " ++ e] :=
  ⟨rfl, rfl⟩

/-- C8: a lookup that succeeds with lyric text exactly equal to the
in-band sentinel "Lyrics not found" is indistinguishable from a
not-found lookup: both deliveries produce identical states and the
label shows the not-found message instead of the lyric text. -/
theorem sentinel_collision (st : PlayerState) :
    deliverSignal st (lyricsWorkerRun (Except.ok (some "Lyrics not found"))) =
      deliverSignal st (lyricsWorkerRun (Except.ok none)) ∧
    (deliverSignal st
        (lyricsWorkerRun (Except.ok (some "Lyrics not found")))).lyricsLabel =
      "No lyrics available for this track." ∧
    (deliverSignal st
        (lyricsWorkerRun (Except.ok (some "Lyrics not found")))).lyricsLabel ≠
      "Lyrics not found" :=
  ⟨rfl, rfl, by
    show "No lyrics available for this track." ≠ "Lyrics not found"
    decide⟩

/-- Helper: the store after the load loop is the fold of dict
assignments over the well-formed items preceding the first malformed
one, starting from the incoming store. -/
theorem loadLoop_trackData (items : List RawItem) : ∀ st : PlayerState,
    (loadLoop st items).trackData =
      (items.takeWhile wellFormedItem).foldl
        (fun s it => insertTrack s (entryKey it) (trackOfItem it)) st.trackData := by
  induction items with
  | nil => intro st; rfl
  | cons it rest ih =>
    intro st
    cases hext : extractItem it with
    | none =>
      have hwf : wellFormedItem it = false := by simp [wellFormedItem, hext]
      simp [loadLoop, hext, List.takeWhile, hwf]
    | some triple =>
      obtain ⟨n, a, u⟩ := triple
      have hwf : wellFormedItem it = true := by simp [wellFormedItem, hext]
      have hk : entryKey it = trackKey n a := by simp [entryKey, hext]
      have ht : trackOfItem it = ⟨n, a, u⟩ := by simp [trackOfItem, hext]
      simp [loadLoop, hext, List.takeWhile, hwf, ih, hk, ht]

/-- Helper: the log after the load loop grows by exactly one printed
error when some item is malformed, and is untouched otherwise. -/
theorem loadLoop_log (items : List RawItem) : ∀ st : PlayerState,
    (loadLoop st items).log =
      (if items.all wellFormedItem then st.log
       else st.log ++ ["Error loading recent tracks: malformed item"]) := by
  induction items with
  | nil => intro st; rfl
  | cons it rest ih =>
    intro st
    cases hext : extractItem it with
    | none =>
      have hwf : wellFormedItem it = false := by simp [wellFormedItem, hext]
      simp [loadLoop, hext, List.all_cons, hwf]
    | some triple =>
      obtain ⟨n, a, u⟩ := triple
      have hwf : wellFormedItem it = true := by simp [wellFormedItem, hext]
      simp [loadLoop, hext, List.all_cons, hwf, ih]

/-- C2 amended: a fetch-level collaborator failure leaves the Track
Collection unchanged and only prints the error; a malformed payload
entry aborts the loop, so the collection holds exactly the well-formed
entries preceding the first malformed one, a possibly partial
population, with the failure printed; no exception propagates (the
operation is a total function into the new state). -/
theorem load_recent_error_containment (st : PlayerState)
    (resp : Except String (List RawItem)) :
    (loadRecentTracks st resp).trackData = specLoadResult st resp ∧
    (loadRecentTracks st resp).log = specLoadLog st resp := by
  cases resp with
  | error e => exact ⟨rfl, rfl⟩
  | ok items =>
    constructor
    · show (loadLoop { st with trackData := [] } items).trackData = _
      rw [loadLoop_trackData]
      rfl
    · show (loadLoop { st with trackData := [] } items).log = _
      rw [loadLoop_log]
      rfl

/-- Helper: assigning a fresh key appends the binding at the end of the
store. -/
theorem insertTrack_fresh (k : String) (t : Track) :
    ∀ store : List (String × Track), k ∉ keysOf store →
      insertTrack store k t = store ++ [(k, t)] := by
  intro store
  induction store with
  | nil => intro _; rfl
  | cons p rest ih =>
    obtain ⟨k', t'⟩ := p
    intro h
    have h2 : ¬(k' = k) := by
      intro e
      exact h (by simp [keysOf, e])
    have h3 : k ∉ keysOf rest := by
      intro hm
      exact h (by simp [keysOf] at hm ⊢; exact Or.inr hm)
    simp [insertTrack, h2, ih h3]

/-- Helper: loading a list of well-formed items with pairwise distinct
keys, none of which is already stored, appends one list row and one
store binding per item, in response order. -/
theorem loadLoop_all_wf (items : List RawItem) : ∀ st : PlayerState,
    (∀ it ∈ items, wellFormedItem it = true) →
    (∀ it ∈ items, entryKey it ∉ keysOf st.trackData) →
    (items.map entryKey).Nodup →
    (loadLoop st items).trackList = st.trackList ++ items.map entryKey ∧
    (loadLoop st items).trackData =
      st.trackData ++ items.map (fun it => (entryKey it, trackOfItem it)) := by
  induction items with
  | nil => intro st _ _ _; simp [loadLoop]
  | cons it rest ih =>
    intro st hwf hfresh hnd
    have hwf0 : wellFormedItem it = true := hwf it (by simp)
    cases hext : extractItem it with
    | none => simp [wellFormedItem, hext] at hwf0
    | some triple =>
      obtain ⟨n, a, u⟩ := triple
      have hk : entryKey it = trackKey n a := by simp [entryKey, hext]
      have ht : trackOfItem it = ⟨n, a, u⟩ := by simp [trackOfItem, hext]
      have hfresh0 : trackKey n a ∉ keysOf st.trackData := hk ▸ hfresh it (by simp)
      have hins : insertTrack st.trackData (trackKey n a) ⟨n, a, u⟩ =
          st.trackData ++ [(trackKey n a, ⟨n, a, u⟩)] :=
        insertTrack_fresh _ _ _ hfresh0
      have hnd1 : entryKey it ∉ rest.map entryKey := (List.nodup_cons.mp (by simpa using hnd)).1
      have hnd2 : (rest.map entryKey).Nodup := (List.nodup_cons.mp (by simpa using hnd)).2
      have hstep := ih
        { st with
          trackData := insertTrack st.trackData (trackKey n a) ⟨n, a, u⟩,
          trackList := st.trackList ++ [trackKey n a] }
        (fun it' h' => hwf it' (by simp [h']))
        (by
          intro it' h'
          rw [hins]
          intro hm
          simp only [keysOf, List.map_append] at hm
          rcases List.mem_append.mp hm with hm1 | hm2
          · exact hfresh it' (by simp [h']) hm1
          · have : entryKey it' = trackKey n a := by simpa using hm2
            exact hnd1 (by
              rw [← hk] at this
              exact this ▸ List.mem_map_of_mem entryKey h')
        )
        hnd2
      obtain ⟨hlist, hdata⟩ := hstep
      constructor
      · show (loadLoop _ (it :: rest)).trackList = _
        simp only [loadLoop, hext]
        rw [hlist]
        simp [hk, List.append_assoc]
      · show (loadLoop _ (it :: rest)).trackData = _
        simp only [loadLoop, hext]
        rw [hdata, hins]
        simp [hk, ht, List.append_assoc]

/-- C5 amended: for a response of N well-formed entries, the list
widget shows the N identity keys in response order; the Track
Collection keeps one binding per distinct key (dict assignment
overwrites duplicates), so when the N keys are pairwise distinct it
holds exactly N entries whose keys are the displayed ones. -/
theorem n_entries_amended (st : PlayerState) (items : List RawItem)
    (hempty : st.trackList = [])
    (hwf : ∀ it ∈ items, wellFormedItem it = true)
    (hnd : (items.map entryKey).Nodup) :
    (loadRecentTracks st (Except.ok items)).trackList = items.map entryKey ∧
    keysOf (loadRecentTracks st (Except.ok items)).trackData = items.map entryKey ∧
    (loadRecentTracks st (Except.ok items)).trackData.length = items.length := by
  have h := loadLoop_all_wf items { st with trackData := [] } hwf (by simp [keysOf]) hnd
  obtain ⟨hlist, hdata⟩ := h
  refine ⟨?_, ?_, ?_⟩
  · show (loadLoop { st with trackData := [] } items).trackList = _
    rw [hlist]; simp [hempty]
  · show keysOf (loadLoop { st with trackData := [] } items).trackData = _
    rw [hdata]; simp [keysOf, Function.comp]
  · show (loadLoop { st with trackData := [] } items).trackData.length = _
    rw [hdata]; simp

/-- Witness: the amended population property applied to a concrete
two-entry response with distinct keys. -/
theorem n_entries_amended_witness :
    (loadRecentTracks initState (Except.ok c5WitnessItems)).trackList =
      c5WitnessItems.map entryKey ∧
    keysOf (loadRecentTracks initState (Except.ok c5WitnessItems)).trackData =
      c5WitnessItems.map entryKey ∧
    (loadRecentTracks initState (Except.ok c5WitnessItems)).trackData.length =
      c5WitnessItems.length :=
  n_entries_amended initState c5WitnessItems (by decide) (by decide) (by decide)

/-- Helper: the key just assigned is among the store keys. -/
theorem mem_keys_insertTrack_self (k : String) (t : Track) :
    ∀ store : List (String × Track), k ∈ keysOf (insertTrack store k t) := by
  intro store
  induction store with
  | nil => simp [insertTrack, keysOf]
  | cons p rest ih =>
    obtain ⟨k', t'⟩ := p
    by_cases h : k' = k
    · simp [insertTrack, h, keysOf]
    · simp only [insertTrack, if_neg h, keysOf, List.map_cons]
      exact List.mem_cons_of_mem _ ih

/-- Helper: dict assignment never removes a key. -/
theorem mem_keys_insertTrack_mono (k k0 : String) (t : Track) :
    ∀ store : List (String × Track), k ∈ keysOf store →
      k ∈ keysOf (insertTrack store k0 t) := by
  intro store
  induction store with
  | nil => intro h; simp [keysOf] at h
  | cons p rest ih =>
    obtain ⟨k', t'⟩ := p
    intro h
    by_cases he : k' = k0
    · simp only [insertTrack, if_pos he, keysOf, List.map_cons] at h ⊢
      rcases List.mem_cons.mp h with h1 | h1
      · exact List.mem_cons.mpr (Or.inl (h1.trans he))
      · exact List.mem_cons_of_mem _ h1
    · simp only [insertTrack, if_neg he, keysOf, List.map_cons] at h ⊢
      rcases List.mem_cons.mp h with h1 | h1
      · exact List.mem_cons.mpr (Or.inl h1)
      · exact List.mem_cons_of_mem _ (ih h1)

/-- Invariant of C10: every item text shown in the list widget is a key
of the Track Data Store. -/
def listInStore (st : PlayerState) : Prop :=
  ∀ item ∈ st.trackList, item ∈ keysOf st.trackData

/-- Helper: the load loop preserves the list-in-store invariant, since
each list row is appended right after its store binding. -/
theorem loadLoop_listInStore (items : List RawItem) : ∀ st : PlayerState,
    listInStore st → listInStore (loadLoop st items) := by
  induction items with
  | nil => intro st h; exact h
  | cons it rest ih =>
    intro st h
    cases hext : extractItem it with
    | none =>
      simp only [loadLoop, hext]
      intro item hm
      exact h item hm
    | some triple =>
      obtain ⟨n, a, u⟩ := triple
      simp only [loadLoop, hext]
      apply ih
      intro item hm
      have hm' : item ∈ st.trackList ++ [trackKey n a] := hm
      rcases List.mem_append.mp hm' with h1 | h1
      · exact mem_keys_insertTrack_mono _ _ _ _ (h item h1)
      · have : item = trackKey n a := by simpa using h1
        rw [this]
        exact mem_keys_insertTrack_self _ _ _
  
/-- Helper: loading into a state with an empty list widget establishes
the list-in-store invariant. -/
theorem loadRecentTracks_listInStore (st : PlayerState)
    (resp : Except String (List RawItem)) (hl : st.trackList = []) :
    listInStore (loadRecentTracks st resp) := by
  cases resp with
  | error e =>
    intro item hm
    have : item ∈ st.trackList := hm
    rw [hl] at this
    simp at this
  | ok items =>
    apply loadLoop_listInStore
    intro item hm
    have : item ∈ st.trackList := hm
    rw [hl] at this
    simp at this

/-- Helper: a selection never changes the list widget or the store. -/
theorem onTrackSelected_fields (st : PlayerState) (item : Option String)
    (st' : PlayerState) (h : onTrackSelected st item = some st') :
    st'.trackData = st.trackData ∧ st'.trackList = st.trackList := by
  cases item with
  | none =>
    simp only [onTrackSelected, Option.some.injEq] at h
    rw [← h]
    exact ⟨rfl, rfl⟩
  | some text =>
    simp only [onTrackSelected] at h
    cases hsp : splitPair text with
    | none => rw [hsp] at h; exact absurd h (by simp)
    | some pair =>
      obtain ⟨n, a⟩ := pair
      rw [hsp] at h
      simp only [Option.some.injEq] at h
      rw [← h]
      exact ⟨rfl, rfl⟩

/-- Helper: every user-level operation preserves the invariant. -/
theorem applyOp_listInStore (st st' : PlayerState) (op : Op)
    (h : applyOp st op = some st') (hinv : listInStore st) : listInStore st' := by
  cases op with
  | refreshOp resp =>
    simp only [applyOp, Option.some.injEq] at h
    rw [← h]
    exact loadRecentTracks_listInStore _ resp rfl
  | selectOp item =>
    obtain ⟨hd, hl⟩ := onTrackSelected_fields st item st' h
    intro x hx
    rw [hd]
    exact hinv x (by rw [← hl]; exact hx)
  | signalOp sig =>
    simp only [applyOp, Option.some.injEq] at h
    rw [← h]
    cases sig with
    | lyricsReady s => intro x hx; exact hinv x hx
    | errorOccurred e => intro x hx; exact hinv x hx

/-- C10: after the initial load and any sequence of refreshes,
selections and signal deliveries that does not crash, every item text
shown in the track list widget is a key present in the Track Data
Store, so the lookup performed on selection by rebuilt key never
misses. -/
theorem track_list_in_store (resp0 : Except String (List RawItem))
    (ops : List Op) (st' : PlayerState) (h : runOps resp0 ops = some st')
    (item : String) (hm : item ∈ st'.trackList) :
    item ∈ keysOf st'.trackData := by
  have main : ∀ (l : List Op) (st : PlayerState), listInStore st →
      ∀ s' : PlayerState, l.foldlM applyOp st = some s' → listInStore s' := by
    intro l
    induction l with
    | nil =>
      intro st hst s' he
      simp only [List.foldlM] at he
      have : st = s' := by simpa using he
      rw [← this]
      exact hst
    | cons op rest ih =>
      intro st hst s' he
      simp only [List.foldlM] at he
      cases hap : applyOp st op with
      | none => rw [hap] at he; simp at he
      | some st1 =>
        rw [hap] at he
        simp at he
        exact ih st1 (applyOp_listInStore st st1 op hap hst) s' he
  exact main ops (loadRecentTracks initState resp0)
    (loadRecentTracks_listInStore initState resp0 rfl) st' h item hm

/-- Witness: the invariant applied to a concrete run that loads one
track, selects it, receives its lyrics and refreshes. -/
theorem track_list_in_store_witness :
    "Tune - Band" ∈ keysOf c10State.trackData :=
  track_list_in_store c10Resp c10Ops c10State (by decide) "Tune - Band" (by decide)

/-- Helper: unfolding of the split scan on a window of three
characters. -/
theorem pySplit_window (c d e : Char) (r : List Char) :
    pySplit (c :: d :: e :: r) =
      if c = ' ' ∧ d = '-' ∧ e = ' ' then [] :: pySplit r
      else consHead c (pySplit (d :: e :: r)) := rfl

/-- Helper: unfolding of the substring test on a window of three
characters. -/
theorem hasSep_window (c d e : Char) (r : List Char) :
    hasSep (c :: d :: e :: r) =
      if c = ' ' ∧ d = '-' ∧ e = ' ' then true else hasSep (d :: e :: r) := rfl

/-- Helper: a split always has at least one part. -/
theorem pySplit_length_pos : ∀ xs : List Char, 1 ≤ (pySplit xs).length := by
  intro xs
  induction xs with
  | nil => simp [pySplit]
  | cons c t ih =>
    rcases t with _ | ⟨d, t2⟩
    · simp [pySplit]
    rcases t2 with _ | ⟨e, r⟩
    · simp [pySplit]
    rw [pySplit_window]
    by_cases h : c = ' ' ∧ d = '-' ∧ e = ' '
    · rw [if_pos h]
      simp
    · rw [if_neg h]
      cases hps : pySplit (d :: e :: r) with
      | nil => rw [hps] at ih; simp at ih
      | cons p ps => simp [consHead]

/-- Helper: consHead never changes the number of parts of a nonempty
split. -/
theorem consHead_len (c : Char) (l : List (List Char)) (h : 1 ≤ l.length) :
    (consHead c l).length = l.length := by
  cases l with
  | nil => simp at h
  | cons p ps => rfl

/-- Helper: a character list containing the separator splits into at
least two parts. -/
theorem pySplit_two_of_hasSep : ∀ xs : List Char, hasSep xs = true →
    2 ≤ (pySplit xs).length := by
  intro xs
  induction xs with
  | nil => intro h; simp [hasSep] at h
  | cons c t ih =>
    intro h
    rcases t with _ | ⟨d, t2⟩
    · simp [hasSep] at h
    rcases t2 with _ | ⟨e, r⟩
    · simp [hasSep] at h
    rw [pySplit_window]
    by_cases hc : c = ' ' ∧ d = '-' ∧ e = ' '
    · rw [if_pos hc]
      have h0 := pySplit_length_pos r
      simp only [List.length_cons]
      omega
    · rw [if_neg hc]
      have h' : hasSep (d :: e :: r) = true := by
        rw [hasSep_window, if_neg hc] at h
        exact h
      have h2 := ih h'
      rw [consHead_len c _ (pySplit_length_pos _)]
      exact h2

/-- Helper: prepending a character keeps the separator present. -/
theorem hasSep_cons (c : Char) (t : List Char) (h : hasSep t = true) :
    hasSep (c :: t) = true := by
  rcases t with _ | ⟨d, t2⟩
  · simp [hasSep] at h
  rcases t2 with _ | ⟨e, r⟩
  · simp [hasSep] at h
  rw [hasSep_window]
  by_cases hc : c = ' ' ∧ d = '-' ∧ e = ' '
  · rw [if_pos hc]
  · rw [if_neg hc]
    exact h

/-- Helper: any list with the separator glued in the middle contains
the separator. -/
theorem hasSep_key (u ys : List Char) :
    hasSep (u ++ ' ' :: '-' :: ' ' :: ys) = true := by
  induction u with
  | nil =>
    rw [List.nil_append, hasSep_window, if_pos ⟨rfl, rfl, rfl⟩]
  | cons c u' ih => exact hasSep_cons c _ ih

/-- Helper: when the glued name or the glued artist contains the
separator, the built key splits into at least three parts (the greedy
scan finds the extra occurrence and the inserted one, or two inside the
artist suffix). -/
theorem pySplit_key_length : ∀ xs ys : List Char,
    hasSep xs = true ∨ hasSep ys = true →
    3 ≤ (pySplit (xs ++ ' ' :: '-' :: ' ' :: ys)).length := by
  intro xs
  induction xs with
  | nil =>
    intro ys h
    have hy : hasSep ys = true := by
      rcases h with h | h
      · simp [hasSep] at h
      · exact h
    have h2 := pySplit_two_of_hasSep ys hy
    rw [List.nil_append, pySplit_window, if_pos ⟨rfl, rfl, rfl⟩]
    simp only [List.length_cons]
    omega
  | cons c t ih =>
    intro ys h
    rcases t with _ | ⟨d, t2⟩
    · have hy : hasSep ys = true := by
        rcases h with h | h
        · simp [hasSep] at h
        · exact h
      have h2 := pySplit_two_of_hasSep ys hy
      have hcond : ¬(c = ' ' ∧ ' ' = '-' ∧ '-' = ' ') := by
        intro hx
        exact absurd hx.2.1 (by decide)
      simp only [List.cons_append, List.nil_append]
      rw [pySplit_window, if_neg hcond]
      rw [pySplit_window, if_pos ⟨rfl, rfl, rfl⟩]
      simp only [consHead, List.length_cons]
      omega
    rcases t2 with _ | ⟨e, r⟩
    · have hy : hasSep ys = true := by
        rcases h with h | h
        · simp [hasSep] at h
        · exact h
      simp only [List.cons_append, List.nil_append]
      by_cases hc : c = ' ' ∧ d = '-'
      · obtain ⟨rfl, rfl⟩ := hc
        have hin : hasSep ('-' :: ' ' :: ys) = true :=
          hasSep_cons _ _ (hasSep_cons _ _ hy)
        have h2 := pySplit_two_of_hasSep _ hin
        rw [pySplit_window, if_pos ⟨rfl, rfl, rfl⟩]
        simp only [List.length_cons]
        omega
      · have hcond : ¬(c = ' ' ∧ d = '-' ∧ ' ' = ' ') := by
          intro hx
          exact hc ⟨hx.1, hx.2.1⟩
        have h3 := ih ys (Or.inr hy)
        simp only [List.cons_append, List.nil_append] at h3
        rw [pySplit_window, if_neg hcond]
        rw [consHead_len c _ (pySplit_length_pos _)]
        exact h3
    · simp only [List.cons_append]
      by_cases hc : c = ' ' ∧ d = '-' ∧ e = ' '
      · obtain ⟨rfl, rfl, rfl⟩ := hc
        have hin := hasSep_key r ys
        have h2 := pySplit_two_of_hasSep _ hin
        rw [pySplit_window, if_pos ⟨rfl, rfl, rfl⟩]
        simp only [List.length_cons]
        omega
      · have h' : hasSep (d :: e :: r) = true ∨ hasSep ys = true := by
          rcases h with h | h
          · rw [hasSep_window, if_neg hc] at h
            exact Or.inl h
          · exact Or.inr h
        have h3 := ih ys h'
        simp only [List.cons_append] at h3
        rw [pySplit_window, if_neg hc]
        rw [consHead_len c _ (pySplit_length_pos _)]
        exact h3

/-- Helper: two-value unpacking raises on three or more parts. -/
theorem unpack2_none (l : List (List Char)) (h : 3 ≤ l.length) :
    unpack2 l = none := by
  rcases l with _ | ⟨a, _ | ⟨b, _ | ⟨c, r⟩⟩⟩
  · simp at h
  · simp at h
  · simp at h
  · rfl

/-- C9 counterexample: for name "x -" and artist "- y", neither of
which contains " - ", the built key "x - - - y" still splits into three
parts, so the two-value unpacking fails: the round trip does not hold
even though neither side contains the separator, refuting the claimed
equivalence. -/
theorem selection_split_counterexample :
    hasSep "x -".toList = false ∧
    hasSep "- y".toList = false ∧
    pySplit ("x -".toList ++ dashSep ++ "- y".toList) = [['x'], ['-'], ['y']] ∧
    unpack2 (pySplit ("x -".toList ++ dashSep ++ "- y".toList)) = none := by
  decide

/-- C9 amended: for any track whose name or artist contains the
substring " - ", the built key splits into at least three parts under
the greedy scan, so the two-value unpacking in on_track_selected fails
(the slot raises ValueError); absence of " - " in both parts is
necessary for the round trip but, by the counterexample, not
sufficient. -/
theorem selection_split_fails (nameC artistC : List Char) (st : PlayerState)
    (h : hasSep nameC = true ∨ hasSep artistC = true) :
    unpack2 (pySplit (nameC ++ dashSep ++ artistC)) = none ∧
    onTrackSelected st (some (String.mk (nameC ++ dashSep ++ artistC))) = none := by
  have hlen : 3 ≤ (pySplit (nameC ++ dashSep ++ artistC)).length := by
    have h0 := pySplit_key_length nameC artistC h
    simpa [dashSep] using h0
  have hu := unpack2_none _ hlen
  refine ⟨hu, ?_⟩
  simp only [onTrackSelected, splitPair]
  rw [show (String.mk (nameC ++ dashSep ++ artistC)).toList =
        nameC ++ dashSep ++ artistC from rfl]
  rw [hu]

/-- Witness: the amended split-failure property applied to the track
name "a - b" (which contains " - ") and artist "c". -/
theorem selection_split_fails_witness :
    hasSep "a - b".toList = true ∧
    unpack2 (pySplit ("a - b".toList ++ dashSep ++ "c".toList)) = none ∧
    onTrackSelected initState
      (some (String.mk ("a - b".toList ++ dashSep ++ "c".toList))) = none :=
  ⟨by decide,
   (selection_split_fails "a - b".toList "c".toList initState (Or.inl (by decide))).1,
   (selection_split_fails "a - b".toList "c".toList initState (Or.inl (by decide))).2⟩
